import Mathlib

/-!
Verification of the command-line argument processor of the
`scene_based_lst` (Landsat surface temperature) tool.

The source under study is `get_args` together with `usage` (the only
non-trivial logic of the examined material).  `get_args` scans the
invocation tokens with `getopt_long` over the fixed registry

    {"verbose", no_argument, &verbose_flag, 1}
    {"debug", no_argument, &debug_flag, 1}
    {"use-tape6", no_argument, &use_tape6_flag, 1}
    {"xml", required_argument, 0, i}
    {"help", no_argument, 0, h}

accumulating the three flag cells and writing the `--xml` value into the
caller-owned `xml_filename` buffer (bounded by `PATH_MAX` via `snprintf`),
then validates that the buffer is non-empty, copies the flag cells into the
caller's boolean out-parameters, echoes the path when verbose, and returns
SUCCESS; every failure path (`--help`, unknown option, missing XML argument)
prints the usage text and returns FAILURE before any boolean out-parameter
is written.

The embedding below is a direct functional translation: the scan is a
recursion over the token list threading the mutable cells
(`xml_filename`, `verbose_flag`, `debug_flag`, `use_tape6_flag`) as an
explicit `ScanState`; console output is modelled as a list of `Emission`
events.  Token recognition (a `getopt_long` concern, external to the
repository) is modelled from the spec's option registry: a token is
recognized exactly when it is one of the five long-form names, with
`--xml` taking a value either attached (`--xml=<value>`) or as the
following token, per `required_argument` semantics.
-/

/-- `PATH_MAX`: the system path-length bound used by
`snprintf(xml_filename, PATH_MAX, "%s", optarg)`. -/
def PATH_MAX : Nat := 4096

/-- `snprintf(buf, PATH_MAX, "%s", v)` stores at most `PATH_MAX - 1`
characters of `v`. -/
def truncatePath (v : String) : String :=
  String.mk (v.data.take (PATH_MAX - 1))

/-- The validated configuration the argument processor produces:
`xml_filename` buffer plus the three boolean out-parameters of
`get_args`. -/
structure RunConfiguration where
  xmlInputPath : String
  useTape6 : Bool
  verboseEnabled : Bool
  debugEnabled : Bool
deriving DecidableEq, Repr

/-- The error taxonomy of the spec (§7).  In the C source the three kinds
are distinguished by the emitted message: `--help` returns FAILURE after
`usage()` with no error message, `case '?'` reports
`"Unknown option %s"` naming the offending token, and the post-scan check
reports `"XML input file is a required argument"`. -/
inductive ParseError where
  | helpRequested : ParseError
  | unrecognizedOption : String → ParseError
  | missingRequiredArgument : ParseError
deriving DecidableEq, Repr

/-- Console output events of `get_args`: the fixed usage text printed by
`usage()` (lines 19-49 of the source) and the verbose echo
`printf("XML_input_file = %s\n", xml_filename)`. -/
inductive Emission where
  | usage : Emission
  | xmlEcho : String → Emission
deriving DecidableEq, Repr

/-- The mutable cells live during the `getopt_long` loop: the caller's
`xml_filename` buffer and the three static flag cells (initialised to 0
at the start of the one-shot process). -/
structure ScanState where
  xml : String
  verbose_flag : Bool
  debug_flag : Bool
  use_tape6_flag : Bool
deriving DecidableEq, Repr

/-- Result of the `while (1)` scan loop: either an early `return FAILURE`
(with the memory state at that point) or fall-through to the post-scan
validation. -/
inductive ScanOutcome where
  | failed : ParseError → ScanState → ScanOutcome
  | done : ScanState → ScanOutcome
deriving DecidableEq, Repr

/-- Does the token carry an attached `--xml=` value? -/
def isXmlAssign (t : String) : Bool :=
  decide (t.data.take 6 = "--xml=".data)

/-- The value attached after `--xml=`. -/
def xmlValue (t : String) : String :=
  String.mk (t.data.drop 6)

/-- One left-to-right pass of the `getopt_long` loop over the remaining
tokens.  `--verbose`, `--debug`, `--use-tape6` set their flag cells
(`case 0`, flag already stored); `--help` is `case 'h'`: `usage()` then
`return FAILURE`; `--xml=<v>` is `case 'i'`: `snprintf` the value into the
buffer; a lone `--xml` consumes the next token as its required argument,
and with no next token `getopt_long` yields `case '?'` naming `--xml`;
any other token is `case '?'`: `usage()` then `RETURN_ERROR` naming the
token. -/
def scanTokens : List String → ScanState → ScanOutcome
  | [], s => .done s
  | t :: rest, s =>
    if t = "--verbose" then
      scanTokens rest { s with verbose_flag := true }
    else if t = "--debug" then
      scanTokens rest { s with debug_flag := true }
    else if t = "--use-tape6" then
      scanTokens rest { s with use_tape6_flag := true }
    else if t = "--help" then
      .failed .helpRequested s
    else if isXmlAssign t then
      scanTokens rest { s with xml := truncatePath (xmlValue t) }
    else if t = "--xml" then
      match rest with
      | v :: rest2 => scanTokens rest2 { s with xml := truncatePath v }
      | [] => .failed (.unrecognizedOption "--xml") s
    else
      .failed (.unrecognizedOption t) s

/-- Two-valued outcome of `get_args`. -/
inductive Status where
  | SUCCESS : Status
  | FAILURE : Status
deriving DecidableEq, Repr

/-- Everything observable about one `get_args` call: the returned status,
the error kind (per the message printed, `none` on success), the caller's
`RunConfiguration` memory after the call, and the console output in
order. -/
structure GetArgsResult where
  status : Status
  error : Option ParseError
  config : RunConfiguration
  emitted : List Emission
deriving DecidableEq, Repr

/-- The cells on entry to the scan loop: the caller's `xml_filename`
buffer contents and the zero-initialised static flag cells. -/
def initState (cfg : RunConfiguration) : ScanState :=
  { xml := cfg.xmlInputPath, verbose_flag := false
    debug_flag := false, use_tape6_flag := false }

/-- `get_args(argc, argv, xml_filename, use_tape6, verbose, debug)`.
`cfg` is the caller-owned memory on entry: the contents of the
`xml_filename` buffer and the prior values of the three boolean
out-parameters.  The static flag cells start at 0.  On every early
FAILURE the booleans are left as the caller supplied them (the C code
returns before lines 141-162); on fall-through, an empty buffer fails
with the required-argument error, otherwise the three booleans are
written from the flag cells, the path is echoed when verbose, and
SUCCESS is returned. -/
def get_args (tokens : List String) (cfg : RunConfiguration) : GetArgsResult :=
  match scanTokens tokens (initState cfg) with
  | .failed e s =>
      { status := .FAILURE, error := some e
        config := { cfg with xmlInputPath := s.xml }
        emitted := [.usage] }
  | .done s =>
      if s.xml = "" then
        { status := .FAILURE, error := some .missingRequiredArgument
          config := { cfg with xmlInputPath := s.xml }
          emitted := [.usage] }
      else
        { status := .SUCCESS, error := none
          config := { xmlInputPath := s.xml, useTape6 := s.use_tape6_flag
                      verboseEnabled := s.verbose_flag
                      debugEnabled := s.debug_flag }
          emitted := if s.verbose_flag then [.xmlEcho s.xml] else [] }

/-- A freshly allocated `RunConfiguration` as the caller prepares it:
`xml_filename` cleared, all booleans false. -/
def freshConfig : RunConfiguration :=
  { xmlInputPath := "", useTape6 := false
    verboseEnabled := false, debugEnabled := false }

/-- The spec's `parse(tokens) -> Result`: one `get_args` call of the
one-shot process, against a freshly allocated configuration. -/
def parse (tokens : List String) : GetArgsResult :=
  get_args tokens freshConfig

/-! ### Token classification helpers -/

/-- The three value-free registry entries that store into flag cells. -/
def isFlagToken (t : String) : Bool :=
  t = "--use-tape6" || t = "--verbose" || t = "--debug"

/-- Tokens handled by the scan without any possibility of failure or of
consuming a following token: the three flag tokens and attached
`--xml=<value>` assignments. -/
def plainTokens (ts : List String) : Bool :=
  ts.all fun t => isFlagToken t || isXmlAssign t

/-- Does `x` occur verbatim in the token list? -/
def hasTok (ts : List String) (x : String) : Bool :=
  ts.any fun t => decide (t = x)

/-- The effect of one scanned plain token on the mutable cells. -/
def applyTok (s : ScanState) (t : String) : ScanState :=
  if t = "--verbose" then { s with verbose_flag := true }
  else if t = "--debug" then { s with debug_flag := true }
  else if t = "--use-tape6" then { s with use_tape6_flag := true }
  else if isXmlAssign t then { s with xml := truncatePath (xmlValue t) }
  else s

/-- Folding the per-token effect over a token list. -/
def applyAll (ts : List String) (s : ScanState) : ScanState :=
  ts.foldl applyTok s

/-- The `xml_filename` buffer contents after scanning `ts` starting from
buffer contents `d`: the truncated value of the last `--xml=` assignment,
or `d` when there is none (last-write-wins). -/
def lastXmlValue (ts : List String) (d : String) : String :=
  ts.foldl (fun acc t => if isXmlAssign t then truncatePath (xmlValue t) else acc) d

/-! ### Small facts about token classification -/

lemma xmlAssign_ne {t : String} (h : isXmlAssign t = true) :
    t ≠ "--verbose" ∧ t ≠ "--debug" ∧ t ≠ "--use-tape6" ∧
    t ≠ "--help" ∧ t ≠ "--xml" := by
  refine ⟨?_, ?_, ?_, ?_, ?_⟩ <;> (rintro rfl; revert h; decide)

lemma flag_not_xmlAssign {t : String} (h : isFlagToken t = true) :
    isXmlAssign t = false := by
  simp only [isFlagToken, Bool.or_eq_true, decide_eq_true_eq] at h
  rcases h with (h | h) | h <;> (subst h; decide)

lemma flag_cases {t : String} (h : isFlagToken t = true) :
    t = "--use-tape6" ∨ t = "--verbose" ∨ t = "--debug" := by
  simpa only [isFlagToken, Bool.or_eq_true, decide_eq_true_eq, or_assoc] using h

/-- One-step unfolding of the scan loop on a non-empty token list. -/
lemma scanTokens_cons (t : String) (rest : List String) (s : ScanState) :
    scanTokens (t :: rest) s =
      (if t = "--verbose" then
        scanTokens rest { s with verbose_flag := true }
      else if t = "--debug" then
        scanTokens rest { s with debug_flag := true }
      else if t = "--use-tape6" then
        scanTokens rest { s with use_tape6_flag := true }
      else if t = "--help" then
        .failed .helpRequested s
      else if isXmlAssign t then
        scanTokens rest { s with xml := truncatePath (xmlValue t) }
      else if t = "--xml" then
        match rest with
        | v :: rest2 => scanTokens rest2 { s with xml := truncatePath v }
        | [] => .failed (.unrecognizedOption "--xml") s
      else
        .failed (.unrecognizedOption t) s) := by
  cases rest <;> rfl

/-! ### Field-wise description of the per-token effect -/

lemma applyTok_verbose (s : ScanState) (t : String) :
    (applyTok s t).verbose_flag = (s.verbose_flag || decide (t = "--verbose")) := by
  unfold applyTok
  split_ifs with h1 h2 h3 h4 <;> simp [h1]

lemma applyTok_debug (s : ScanState) (t : String) :
    (applyTok s t).debug_flag = (s.debug_flag || decide (t = "--debug")) := by
  unfold applyTok
  split_ifs with h1 h2 h3 h4 <;> simp_all

lemma applyTok_tape6 (s : ScanState) (t : String) :
    (applyTok s t).use_tape6_flag = (s.use_tape6_flag || decide (t = "--use-tape6")) := by
  unfold applyTok
  split_ifs with h1 h2 h3 h4 <;> simp_all

lemma applyTok_xml (s : ScanState) (t : String)
    (hflag : isFlagToken t = true ∨ isXmlAssign t = true) :
    (applyTok s t).xml = (if isXmlAssign t then truncatePath (xmlValue t) else s.xml) := by
  rcases hflag with h | h
  · rcases flag_cases h with h1 | h1 | h1 <;> subst h1 <;>
      rw [if_neg (by decide)] <;> simp [applyTok]
  · obtain ⟨n1, n2, n3, _, _⟩ := xmlAssign_ne h
    simp only [applyTok]
    rw [if_neg n1, if_neg n2, if_neg n3, if_pos h, if_pos h]

/-! ### Field-wise description of a completed scan -/

lemma applyAll_cons (t : String) (ts : List String) (s : ScanState) :
    applyAll (t :: ts) s = applyAll ts (applyTok s t) := by
  simp [applyAll]

lemma applyAll_verbose (ts : List String) :
    ∀ s : ScanState, (applyAll ts s).verbose_flag
      = (s.verbose_flag || hasTok ts "--verbose") := by
  induction ts with
  | nil => intro s; simp [applyAll, hasTok]
  | cons t ts ih =>
      intro s
      rw [applyAll_cons, ih, applyTok_verbose]
      simp [hasTok, Bool.or_assoc]

lemma applyAll_debug (ts : List String) :
    ∀ s : ScanState, (applyAll ts s).debug_flag
      = (s.debug_flag || hasTok ts "--debug") := by
  induction ts with
  | nil => intro s; simp [applyAll, hasTok]
  | cons t ts ih =>
      intro s
      rw [applyAll_cons, ih, applyTok_debug]
      simp [hasTok, Bool.or_assoc]

lemma applyAll_tape6 (ts : List String) :
    ∀ s : ScanState, (applyAll ts s).use_tape6_flag
      = (s.use_tape6_flag || hasTok ts "--use-tape6") := by
  induction ts with
  | nil => intro s; simp [applyAll, hasTok]
  | cons t ts ih =>
      intro s
      rw [applyAll_cons, ih, applyTok_tape6]
      simp [hasTok, Bool.or_assoc]

lemma plainTokens_cons {t : String} {ts : List String}
    (h : plainTokens (t :: ts) = true) :
    (isFlagToken t = true ∨ isXmlAssign t = true) ∧ plainTokens ts = true := by
  simpa [plainTokens, Bool.or_eq_true] using h

lemma applyAll_xml {ts : List String} (h : plainTokens ts = true) :
    ∀ s : ScanState, (applyAll ts s).xml = lastXmlValue ts s.xml := by
  induction ts with
  | nil => intro s; simp [applyAll, lastXmlValue]
  | cons t ts ih =>
      intro s
      obtain ⟨ht, hts⟩ := plainTokens_cons h
      rw [applyAll_cons, ih hts]
      simp only [lastXmlValue, List.foldl_cons]
      rw [applyTok_xml s t ht]

/-- A scan over plain tokens never fails: it just folds the per-token
effect over the state. -/
lemma scan_plain {ts : List String} (h : plainTokens ts = true) :
    ∀ s : ScanState, scanTokens ts s = .done (applyAll ts s) := by
  induction ts with
  | nil => intro s; simp [scanTokens, applyAll]
  | cons t ts ih =>
      intro s
      obtain ⟨ht, hts⟩ := plainTokens_cons h
      rw [applyAll_cons]
      rcases ht with hf | hx
      · rcases flag_cases hf with h1 | h1 | h1 <;> subst h1
        · rw [scanTokens_cons, if_neg (by decide), if_neg (by decide), if_pos rfl,
            show applyTok s "--use-tape6" = { s with use_tape6_flag := true } from
              by simp [applyTok]]
          exact ih hts _
        · rw [scanTokens_cons, if_pos rfl,
            show applyTok s "--verbose" = { s with verbose_flag := true } from
              by simp [applyTok]]
          exact ih hts _
        · rw [scanTokens_cons, if_neg (by decide), if_pos rfl,
            show applyTok s "--debug" = { s with debug_flag := true } from
              by simp [applyTok]]
          exact ih hts _
      · obtain ⟨n1, n2, n3, n4, n5⟩ := xmlAssign_ne hx
        rw [scanTokens_cons, if_neg n1, if_neg n2, if_neg n3, if_neg n4, if_pos hx,
          show applyTok s t = { s with xml := truncatePath (xmlValue t) } from by
            simp only [applyTok]
            rw [if_neg n1, if_neg n2, if_neg n3, if_pos hx]]
        exact ih hts _

/-- A scan that falls through its token list continues on appended
tokens from the state it reached (the loop consumes `argv` left to
right). -/
lemma scan_append (suf : List String) :
    ∀ (pre : List String) (s0 : ScanState),
      ∀ s, scanTokens pre s0 = .done s →
        scanTokens (pre ++ suf) s0 = scanTokens suf s := by
  intro pre s0
  induction pre, s0 using scanTokens.induct with
  | case1 s0 =>
      intro s h
      simp only [scanTokens] at h
      cases h
      simp
  | case2 rest s0 ih =>
      intro s h
      rw [scanTokens_cons, if_pos rfl] at h
      rw [List.cons_append, scanTokens_cons, if_pos rfl]
      exact ih s h
  | case3 rest s0 hne ih =>
      intro s h
      rw [scanTokens_cons, if_neg (by decide), if_pos rfl] at h
      rw [List.cons_append, scanTokens_cons, if_neg (by decide), if_pos rfl]
      exact ih s h
  | case4 rest s0 h1 h2 ih =>
      intro s h
      rw [scanTokens_cons, if_neg (by decide), if_neg (by decide), if_pos rfl] at h
      rw [List.cons_append, scanTokens_cons, if_neg (by decide), if_neg (by decide),
        if_pos rfl]
      exact ih s h
  | case5 rest s0 h1 h2 h3 =>
      intro s h
      rw [scanTokens_cons, if_neg (by decide), if_neg (by decide), if_neg (by decide),
        if_pos rfl] at h
      cases h
  | case6 t rest s0 h1 h2 h3 h4 h5 ih =>
      intro s h
      rw [scanTokens_cons, if_neg h1, if_neg h2, if_neg h3, if_neg h4, if_pos h5] at h
      rw [List.cons_append, scanTokens_cons, if_neg h1, if_neg h2, if_neg h3, if_neg h4,
        if_pos h5]
      exact ih s h
  | case7 s0 v rest2 h1 h2 h3 h4 h5 ih =>
      intro s h
      rw [scanTokens_cons, if_neg (by decide), if_neg (by decide), if_neg (by decide),
        if_neg (by decide), if_neg (by decide), if_pos rfl] at h
      rw [List.cons_append, scanTokens_cons, if_neg (by decide), if_neg (by decide),
        if_neg (by decide), if_neg (by decide), if_neg (by decide), if_pos rfl]
      exact ih s h
  | case8 s0 h1 h2 h3 h4 h5 =>
      intro s h
      rw [scanTokens_cons, if_neg (by decide), if_neg (by decide), if_neg (by decide),
        if_neg (by decide), if_neg (by decide), if_pos rfl] at h
      cases h
  | case9 t rest s0 h1 h2 h3 h4 h5 h6 =>
      intro s h
      rw [scanTokens_cons, if_neg h1, if_neg h2, if_neg h3, if_neg h4, if_neg h5,
        if_neg h6] at h
      cases h

/-! ### The last-write-wins description of the xml buffer -/

lemma lastXmlValue_nil (d : String) : lastXmlValue [] d = d := rfl

lemma lastXmlValue_cons (t : String) (ts : List String) (d : String) :
    lastXmlValue (t :: ts) d
      = lastXmlValue ts (if isXmlAssign t then truncatePath (xmlValue t) else d) := by
  simp [lastXmlValue]

lemma lastXmlValue_append (xs ys : List String) (d : String) :
    lastXmlValue (xs ++ ys) d = lastXmlValue ys (lastXmlValue xs d) := by
  simp [lastXmlValue, List.foldl_append]

lemma lastXmlValue_no_xml {ts : List String}
    (h : ts.all (fun t => !isXmlAssign t) = true) (d : String) :
    lastXmlValue ts d = d := by
  induction ts generalizing d with
  | nil => rfl
  | cons t ts ih =>
      simp only [List.all_cons, Bool.and_eq_true, Bool.not_eq_eq_eq_not,
        Bool.not_true] at h
      rw [lastXmlValue_cons, if_neg (by simp [h.1]), ih h.2]

lemma lastXmlValue_const {x : String} {ts : List String}
    (h : ∀ t ∈ ts, isXmlAssign t = true → t = x) (d : String) :
    lastXmlValue ts d
      = (if ts.any isXmlAssign then truncatePath (xmlValue x) else d) := by
  induction ts generalizing d with
  | nil => simp [lastXmlValue_nil]
  | cons t ts ih =>
      rw [lastXmlValue_cons, List.any_cons]
      by_cases hx : isXmlAssign t = true
      · rw [if_pos hx, hx, Bool.true_or, if_pos rfl,
          h t (List.mem_cons_self t ts) hx,
          ih (fun u hu hxu => h u (List.mem_cons_of_mem t hu) hxu)]
        split <;> rfl
      · rw [if_neg hx, ih (fun u hu hxu => h u (List.mem_cons_of_mem t hu) hxu)]
        have : isXmlAssign t = false := by
          cases hv : isXmlAssign t
          · rfl
          · exact absurd hv hx
        rw [this, Bool.false_or]

/-! ### Truncation facts -/

lemma truncatePath_ne_empty {v : String} (h : v ≠ "") : truncatePath v ≠ "" := by
  intro hc
  apply h
  have hd : v.data.take (PATH_MAX - 1) = [] := congrArg String.data hc
  rw [List.take_eq_nil_iff] at hd
  rcases hd with hd | hd
  · exact absurd hd (by decide)
  · cases v
    cases hd
    rfl

/-! ### Permutation invariance helpers -/

lemma perm_any {ts₁ ts₂ : List String} (h : ts₁.Perm ts₂) (p : String → Bool) :
    ts₁.any p = ts₂.any p := by
  cases h2 : ts₂.any p
  · rw [List.any_eq_false] at h2 ⊢
    intro x hx
    exact h2 x (h.mem_iff.mp hx)
  · rw [List.any_eq_true] at h2 ⊢
    obtain ⟨x, hx, hp⟩ := h2
    exact ⟨x, h.mem_iff.mpr hx, hp⟩

lemma perm_all {ts₁ ts₂ : List String} (h : ts₁.Perm ts₂) (p : String → Bool) :
    ts₁.all p = ts₂.all p := by
  cases h2 : ts₂.all p
  · rw [List.all_eq_false] at h2 ⊢
    obtain ⟨x, hx, hp⟩ := h2
    exact ⟨x, h.mem_iff.mpr hx, hp⟩
  · rw [List.all_eq_true] at h2 ⊢
    intro x hx
    exact h2 x (h.mem_iff.mp hx)

/-! ### Unfolding `get_args` over the two scan outcomes -/

lemma get_args_failed {ts : List String} {cfg : RunConfiguration}
    {e : ParseError} {s : ScanState}
    (h : scanTokens ts (initState cfg) = .failed e s) :
    get_args ts cfg =
      { status := .FAILURE, error := some e
        config := { cfg with xmlInputPath := s.xml }
        emitted := [.usage] } := by
  unfold get_args
  rw [h]

lemma get_args_done {ts : List String} {cfg : RunConfiguration} {s : ScanState}
    (h : scanTokens ts (initState cfg) = .done s) :
    get_args ts cfg =
      (if s.xml = "" then
        { status := .FAILURE, error := some .missingRequiredArgument
          config := { cfg with xmlInputPath := s.xml }
          emitted := [.usage] }
      else
        { status := .SUCCESS, error := none
          config := { xmlInputPath := s.xml, useTape6 := s.use_tape6_flag
                      verboseEnabled := s.verbose_flag
                      debugEnabled := s.debug_flag }
          emitted := if s.verbose_flag then [.xmlEcho s.xml] else [] }) := by
  unfold get_args
  rw [h]

/-! ### Full description of `get_args` on plain token lists -/

/-- What one `get_args` call does on a token list made of flag tokens and
attached `--xml=` assignments: no failure can occur during the scan, the
buffer ends at the last-written xml value, each boolean records whether
its token occurred, and the post-scan validation decides the outcome. -/
lemma get_args_plain {ts : List String} (h : plainTokens ts = true)
    (cfg : RunConfiguration) :
    get_args ts cfg =
      (if lastXmlValue ts cfg.xmlInputPath = "" then
        { status := .FAILURE, error := some .missingRequiredArgument
          config := { cfg with xmlInputPath := lastXmlValue ts cfg.xmlInputPath }
          emitted := [.usage] }
      else
        { status := .SUCCESS, error := none
          config := { xmlInputPath := lastXmlValue ts cfg.xmlInputPath
                      useTape6 := hasTok ts "--use-tape6"
                      verboseEnabled := hasTok ts "--verbose"
                      debugEnabled := hasTok ts "--debug" }
          emitted := if hasTok ts "--verbose" then
              [.xmlEcho (lastXmlValue ts cfg.xmlInputPath)] else [] }) := by
  rw [get_args_done (scan_plain h (initState cfg))]
  have hx : (applyAll ts (initState cfg)).xml = lastXmlValue ts cfg.xmlInputPath :=
    applyAll_xml h (initState cfg)
  have hv : (applyAll ts (initState cfg)).verbose_flag = hasTok ts "--verbose" := by
    rw [applyAll_verbose]; simp [initState]
  have hd : (applyAll ts (initState cfg)).debug_flag = hasTok ts "--debug" := by
    rw [applyAll_debug]; simp [initState]
  have ht : (applyAll ts (initState cfg)).use_tape6_flag = hasTok ts "--use-tape6" := by
    rw [applyAll_tape6]; simp [initState]
  rw [hx, hv, hd, ht]

lemma hasTok_false {ts : List String} {x : String} (h : x ∉ ts) :
    hasTok ts x = false := by
  rw [hasTok, List.any_eq_false]
  intro u hu
  simp only [decide_eq_true_eq]
  rintro rfl
  exact h hu

lemma flag_token_false {t : String} (h : isFlagToken t = false) :
    t ≠ "--use-tape6" ∧ t ≠ "--verbose" ∧ t ≠ "--debug" := by
  refine ⟨?_, ?_, ?_⟩ <;> (rintro rfl; exact absurd h (by decide))

lemma perm_hasTok {ts₁ ts₂ : List String} (h : ts₁.Perm ts₂) (x : String) :
    hasTok ts₁ x = hasTok ts₂ x :=
  perm_any h _

/-! ### Claims -/

/-- Claim C1, counterexample to the claim as stated.  The token list
`["--xml=a.xml", "--help"]` contains a well-formed `--xml=` token with
non-empty value and contains no unrecognized token (`--help` is in the
option registry), yet `parse` returns FAILURE: the `--help` branch
short-circuits the scan before the success path is reached. -/
theorem claim_C1_counterexample :
    (parse ["--xml=a.xml", "--help"]).status = .FAILURE ∧
    (parse ["--xml=a.xml", "--help"]).error = some .helpRequested := by
  decide

/-- Claim C1 (amended): for every token sequence made only of the
optional flag tokens and attached `--xml=<value>` assignments (so in
particular containing no `--help`, no lone `--xml` and no unrecognized
token), whose last `--xml=` assignment carries a non-empty value,
`parse` returns SUCCESS, `xmlInputPath` equals that value truncated to
the path-length limit, and every boolean whose flag token did not appear
is false. -/
theorem claim_C1_amended (pre post : List String) (t : String)
    (hplain : plainTokens (pre ++ t :: post) = true)
    (hx : isXmlAssign t = true)
    (hv : xmlValue t ≠ "")
    (hlast : post.all (fun u => !isXmlAssign u) = true) :
    (parse (pre ++ t :: post)).status = .SUCCESS ∧
    (parse (pre ++ t :: post)).config.xmlInputPath = truncatePath (xmlValue t) ∧
    ("--use-tape6" ∉ pre ++ t :: post →
      (parse (pre ++ t :: post)).config.useTape6 = false) ∧
    ("--verbose" ∉ pre ++ t :: post →
      (parse (pre ++ t :: post)).config.verboseEnabled = false) ∧
    ("--debug" ∉ pre ++ t :: post →
      (parse (pre ++ t :: post)).config.debugEnabled = false) := by
  have hL : lastXmlValue (pre ++ t :: post) freshConfig.xmlInputPath
      = truncatePath (xmlValue t) := by
    rw [lastXmlValue_append, lastXmlValue_cons, if_pos hx, lastXmlValue_no_xml hlast]
  have hne : truncatePath (xmlValue t) ≠ "" := truncatePath_ne_empty hv
  unfold parse
  rw [get_args_plain hplain freshConfig, hL, if_neg hne]
  exact ⟨rfl, rfl, fun h => hasTok_false h, fun h => hasTok_false h,
    fun h => hasTok_false h⟩

/-- Claim C1 witness: the amended claim applied to
`["--verbose", "--xml=a.xml"]`. -/
theorem claim_C1_witness :
    (parse ["--verbose", "--xml=a.xml"]).status = .SUCCESS ∧
    (parse ["--verbose", "--xml=a.xml"]).config.xmlInputPath
      = truncatePath (xmlValue "--xml=a.xml") ∧
    (parse ["--verbose", "--xml=a.xml"]).config.useTape6 = false :=
  ⟨(claim_C1_amended ["--verbose"] [] "--xml=a.xml"
      (by decide) (by decide) (by decide) (by decide)).1,
   (claim_C1_amended ["--verbose"] [] "--xml=a.xml"
      (by decide) (by decide) (by decide) (by decide)).2.1,
   (claim_C1_amended ["--verbose"] [] "--xml=a.xml"
      (by decide) (by decide) (by decide) (by decide)).2.2.1 (by decide)⟩

/-- Claim C2: if the `xml_filename` buffer is empty once the scan has
consumed every token — in particular for the empty token list and for
`--xml=` with an empty value — `parse` fails with the
required-argument error after emitting usage; equivalently, on every
SUCCESS return `xmlInputPath` is non-empty. -/
theorem claim_C2 (ts : List String) :
    (∀ s, scanTokens ts (initState freshConfig) = .done s → s.xml = "" →
      parse ts = { status := .FAILURE, error := some .missingRequiredArgument
                   config := freshConfig, emitted := [.usage] }) ∧
    ((parse ts).status = .SUCCESS → (parse ts).config.xmlInputPath ≠ "") := by
  constructor
  · intro s hs hxml
    unfold parse
    rw [get_args_done hs, if_pos hxml, hxml]
    rfl
  · intro hsucc
    unfold parse at hsucc ⊢
    cases hscan : scanTokens ts (initState freshConfig) with
    | failed e s =>
        rw [get_args_failed hscan] at hsucc
        simp at hsucc
    | done s =>
        rw [get_args_done hscan] at hsucc ⊢
        by_cases hx : s.xml = ""
        · rw [if_pos hx] at hsucc
          simp at hsucc
        · rw [if_neg hx]
          exact hx

/-- Claim C2 witness: `["--xml="]` scans to an empty buffer and fails
with the required-argument error. -/
theorem claim_C2_witness :
    parse ["--xml="] = { status := .FAILURE
                         error := some .missingRequiredArgument
                         config := freshConfig, emitted := [.usage] } :=
  (claim_C2 ["--xml="]).1
    { xml := "", verbose_flag := false, debug_flag := false
      use_tape6_flag := false } (by decide) rfl

/-- Claim C3, counterexample to the claim as stated.  Two token lists
containing `--help` that do not yield `Failure(HelpRequested)`: in
`["--xml", "--help"]` the lone `--xml` consumes `--help` as its required
argument and the call SUCCEEDS with `xmlInputPath = "--help"`; in
`["--bogus", "--help"]` the scan fails at `--bogus` first, so the error
is the unrecognized-option one, not HelpRequested. -/
theorem claim_C3_counterexample :
    (parse ["--xml", "--help"]).status = .SUCCESS ∧
    (parse ["--xml", "--help"]).config.xmlInputPath = "--help" ∧
    (parse ["--bogus", "--help"]).error
      = some (.unrecognizedOption "--bogus") := by
  decide

/-- Claim C3 (amended): whenever the scan actually reaches `--help` as
an option token — every earlier token was consumed without failure and
`--help` is not eaten as the value of a preceding `--xml` — `parse`
emits the usage text and returns the HelpRequested failure, whatever
tokens follow; in particular a sequence starting with `--help` always
fails this way, and no scanned `--help` ever leads to SUCCESS. -/
theorem claim_C3_amended (pre rest : List String) (s : ScanState)
    (hs : scanTokens pre (initState freshConfig) = .done s) :
    parse (pre ++ "--help" :: rest) =
      { status := .FAILURE, error := some .helpRequested
        config := { freshConfig with xmlInputPath := s.xml }
        emitted := [.usage] } := by
  have hstep : scanTokens (pre ++ "--help" :: rest) (initState freshConfig)
      = .failed .helpRequested s := by
    rw [scan_append ("--help" :: rest) pre (initState freshConfig) s hs,
      scanTokens_cons, if_neg (by decide), if_neg (by decide),
      if_neg (by decide), if_pos rfl]
  unfold parse
  rw [get_args_failed hstep]

/-- Claim C3 witness: the amended claim applied to
`["--xml=a.xml"] ++ "--help" :: ["--debug"]`. -/
theorem claim_C3_witness :
    parse (["--xml=a.xml"] ++ "--help" :: ["--debug"]) =
      { status := .FAILURE, error := some .helpRequested
        config := { freshConfig with xmlInputPath := "a.xml" }
        emitted := [.usage] } :=
  claim_C3_amended ["--xml=a.xml"] ["--debug"]
    { xml := "a.xml", verbose_flag := false, debug_flag := false
      use_tape6_flag := false } (by decide)

/-- Claim C4, counterexample to the claim as stated.  The token list
`["--help", "--bogus"]` contains the unrecognized token `--bogus`, but
parsing does not fail at that token with an error identifying it: the
earlier `--help` ends the scan first with HelpRequested and no offending
token is named. -/
theorem claim_C4_counterexample :
    (parse ["--help", "--bogus"]).error = some .helpRequested ∧
    (parse ["--help", "--bogus"]).error
      ≠ some (.unrecognizedOption "--bogus") := by
  decide

/-- Claim C4 (amended): when the scan reaches a token that matches no
registry entry (first conjunct), or reaches a lone `--xml` with no
following token to serve as its value (second conjunct), parsing fails
right there with an error identifying that token, and the usage text is
the output emitted with the failure. -/
theorem claim_C4_amended :
    (∀ (pre : List String) (t : String) (rest : List String) (s : ScanState),
      scanTokens pre (initState freshConfig) = .done s →
      isFlagToken t = false → t ≠ "--help" → isXmlAssign t = false →
      t ≠ "--xml" →
      parse (pre ++ t :: rest) =
        { status := .FAILURE, error := some (.unrecognizedOption t)
          config := { freshConfig with xmlInputPath := s.xml }
          emitted := [.usage] }) ∧
    (∀ (pre : List String) (s : ScanState),
      scanTokens pre (initState freshConfig) = .done s →
      parse (pre ++ ["--xml"]) =
        { status := .FAILURE, error := some (.unrecognizedOption "--xml")
          config := { freshConfig with xmlInputPath := s.xml }
          emitted := [.usage] }) := by
  constructor
  · intro pre t rest s hs hf hh hx hxml
    obtain ⟨n1, n2, n3⟩ := flag_token_false hf
    have hstep : scanTokens (pre ++ t :: rest) (initState freshConfig)
        = .failed (.unrecognizedOption t) s := by
      rw [scan_append (t :: rest) pre (initState freshConfig) s hs,
        scanTokens_cons, if_neg n2, if_neg n3, if_neg n1, if_neg hh,
        if_neg (by simp [hx]), if_neg hxml]
    unfold parse
    rw [get_args_failed hstep]
  · intro pre s hs
    have hstep : scanTokens (pre ++ ["--xml"]) (initState freshConfig)
        = .failed (.unrecognizedOption "--xml") s := by
      rw [scan_append ["--xml"] pre (initState freshConfig) s hs,
        scanTokens_cons, if_neg (by decide), if_neg (by decide),
        if_neg (by decide), if_neg (by decide), if_neg (by decide),
        if_pos rfl]
    unfold parse
    rw [get_args_failed hstep]

/-- Claim C4 witness: the amended claim applied to
`["--xml=a.xml"] ++ "--bogus" :: []`. -/
theorem claim_C4_witness :
    parse (["--xml=a.xml"] ++ "--bogus" :: []) =
      { status := .FAILURE, error := some (.unrecognizedOption "--bogus")
        config := { freshConfig with xmlInputPath := "a.xml" }
        emitted := [.usage] } :=
  claim_C4_amended.1 ["--xml=a.xml"] "--bogus" []
    { xml := "a.xml", verbose_flag := false, debug_flag := false
      use_tape6_flag := false }
    (by decide) (by decide) (by decide) (by decide) (by decide)

/-- Claim C5: two independent invocations of the parser on the same
token sequence, each against a freshly allocated configuration (the
one-shot process model: flag cells zero-initialised, buffer empty),
return bitwise-identical results — same status, error, configuration
fields and output. -/
theorem claim_C5 (ts : List String) (c₁ c₂ : RunConfiguration)
    (h₁ : c₁ = freshConfig) (h₂ : c₂ = freshConfig) :
    get_args ts c₁ = get_args ts c₂ := by
  rw [h₁, h₂]

/-- Claim C5 witness at a concrete token sequence. -/
theorem claim_C5_witness :
    get_args ["--xml=a.xml"] freshConfig = get_args ["--xml=a.xml"] freshConfig :=
  claim_C5 ["--xml=a.xml"] freshConfig freshConfig rfl rfl

/-- Claim C6: permuting the optional flag tokens around a fixed
`--xml=...` token (any token list over those four tokens, in any order)
yields the identical `parse` result — same status, same configuration
fields, same output. -/
theorem claim_C6 (x : String) (ts₁ ts₂ : List String)
    (hx : isXmlAssign x = true)
    (hperm : ts₁.Perm ts₂)
    (hmem : ∀ t ∈ ts₁, isFlagToken t = true ∨ t = x) :
    parse ts₁ = parse ts₂ := by
  have hplain₁ : plainTokens ts₁ = true := by
    rw [plainTokens, List.all_eq_true]
    intro t ht
    rcases hmem t ht with hf | rfl
    · simp [hf]
    · simp [hx]
  have hplain₂ : plainTokens ts₂ = true := by
    rw [plainTokens, ← perm_all hperm]
    exact hplain₁
  have hconst₁ : ∀ t ∈ ts₁, isXmlAssign t = true → t = x := by
    intro t ht hxt
    rcases hmem t ht with hf | h
    · rw [flag_not_xmlAssign hf] at hxt
      cases hxt
    · exact h
  have hconst₂ : ∀ t ∈ ts₂, isXmlAssign t = true → t = x := fun t ht hxt =>
    hconst₁ t (hperm.mem_iff.mpr ht) hxt
  unfold parse
  rw [get_args_plain hplain₁ freshConfig, get_args_plain hplain₂ freshConfig,
    lastXmlValue_const hconst₁, lastXmlValue_const hconst₂,
    perm_any hperm isXmlAssign,
    perm_hasTok hperm "--verbose", perm_hasTok hperm "--debug",
    perm_hasTok hperm "--use-tape6"]

/-- Claim C6 witness: a concrete permutation of `--verbose`, `--debug`
around `--xml=a.xml`. -/
theorem claim_C6_witness :
    parse ["--verbose", "--xml=a.xml", "--debug"]
      = parse ["--xml=a.xml", "--debug", "--verbose"] :=
  claim_C6 "--xml=a.xml" ["--verbose", "--xml=a.xml", "--debug"]
    ["--xml=a.xml", "--debug", "--verbose"]
    (by decide) (by decide) (by decide)

/-- Claim C7: when an option is supplied more than once the last
occurrence wins and the duplication itself raises no error.  First
conjunct: the spec's concrete instance,
`parse(["--xml=a.xml", "--xml=b.xml"])` succeeds with
`xmlInputPath = "b.xml"` and no error.  Second conjunct, the general
last-write-wins law: inside any sequence of flag tokens and `--xml=`
assignments, dropping an `--xml=` assignment that is immediately
followed by another one leaves the entire parse result unchanged — the
earlier write is simply overwritten. -/
theorem claim_C7 :
    (parse ["--xml=a.xml", "--xml=b.xml"]
      = { status := .SUCCESS, error := none
          config := { xmlInputPath := "b.xml", useTape6 := false
                      verboseEnabled := false, debugEnabled := false }
          emitted := [] }) ∧
    (∀ (pre post : List String) (t u : String),
      plainTokens pre = true → plainTokens post = true →
      isXmlAssign t = true → isXmlAssign u = true →
      parse (pre ++ t :: u :: post) = parse (pre ++ u :: post)) := by
  constructor
  · decide
  · intro pre post t u hpre hpost ht hu
    have htu : isFlagToken t = true || isXmlAssign t = true := by simp [ht]
    have huu : isFlagToken u = true || isXmlAssign u = true := by simp [hu]
    have hplain₁ : plainTokens (pre ++ t :: u :: post) = true := by
      rw [plainTokens, List.all_append, List.all_cons, List.all_cons]
      rw [plainTokens] at hpre hpost
      simp only [hpre, hpost, ht, hu]
      simp
    have hplain₂ : plainTokens (pre ++ u :: post) = true := by
      rw [plainTokens, List.all_append, List.all_cons]
      rw [plainTokens] at hpre hpost
      simp only [hpre, hpost, hu]
      simp
    obtain ⟨m1, m2, m3, _, _⟩ := xmlAssign_ne ht
    have hL : lastXmlValue (pre ++ t :: u :: post) freshConfig.xmlInputPath
        = lastXmlValue (pre ++ u :: post) freshConfig.xmlInputPath := by
      rw [lastXmlValue_append, lastXmlValue_append, lastXmlValue_cons,
        lastXmlValue_cons, lastXmlValue_cons, if_pos ht, if_pos hu, if_pos hu]
    have hv : hasTok (pre ++ t :: u :: post) "--verbose"
        = hasTok (pre ++ u :: post) "--verbose" := by
      simp [hasTok, m1]
    have hd : hasTok (pre ++ t :: u :: post) "--debug"
        = hasTok (pre ++ u :: post) "--debug" := by
      simp [hasTok, m2]
    have ht6 : hasTok (pre ++ t :: u :: post) "--use-tape6"
        = hasTok (pre ++ u :: post) "--use-tape6" := by
      simp [hasTok, m3]
    unfold parse
    rw [get_args_plain hplain₁ freshConfig, get_args_plain hplain₂ freshConfig,
      hL, hv, hd, ht6]

/-- Claim C7 witness: a duplicated `--xml=` assignment after a flag
token is transparent. -/
theorem claim_C7_witness :
    parse (["--verbose"] ++ "--xml=a.xml" :: "--xml=b.xml" :: [])
      = parse (["--verbose"] ++ "--xml=b.xml" :: []) :=
  claim_C7.2 ["--verbose"] [] "--xml=a.xml" "--xml=b.xml"
    (by decide) (by decide) (by decide) (by decide)

/-- Claim C8: on a SUCCESS return with `verboseEnabled` true, the output
is exactly one `XML_input_file = <path>` line echoing the resolved
`xmlInputPath`, emitted before the result is returned; with
`verboseEnabled` false no such line is emitted.  Conversely every echo
line in the output implies a verbose SUCCESS and carries the resolved
path. -/
theorem claim_C8 (ts : List String) :
    ((parse ts).status = .SUCCESS →
      ((parse ts).config.verboseEnabled = true →
        (parse ts).emitted = [.xmlEcho (parse ts).config.xmlInputPath]) ∧
      ((parse ts).config.verboseEnabled = false →
        (parse ts).emitted = [])) ∧
    (∀ p, Emission.xmlEcho p ∈ (parse ts).emitted →
      (parse ts).status = .SUCCESS ∧
      (parse ts).config.verboseEnabled = true ∧
      p = (parse ts).config.xmlInputPath) := by
  unfold parse
  cases hscan : scanTokens ts (initState freshConfig) with
  | failed e s =>
      rw [get_args_failed hscan]
      constructor
      · intro hsucc
        simp at hsucc
      · intro p hp
        simp at hp
  | done s =>
      rw [get_args_done hscan]
      by_cases hx : s.xml = ""
      · rw [if_pos hx]
        constructor
        · intro hsucc
          simp at hsucc
        · intro p hp
          simp at hp
      · rw [if_neg hx]
        constructor
        · intro _
          constructor
          · intro hv
            simp only at hv
            simp [hv]
          · intro hv
            simp only at hv
            simp [hv]
        · intro p hp
          simp only at hp
          by_cases hv : s.verbose_flag
          · rw [if_pos hv] at hp
            simp only [List.mem_singleton, Emission.xmlEcho.injEq] at hp
            exact ⟨rfl, hv, hp⟩
          · rw [if_neg hv] at hp
            simp at hp

/-- Claim C8 witness: `["--xml=a.xml", "--verbose"]` succeeds verbosely
and emits exactly the echo of the resolved path. -/
theorem claim_C8_witness :
    (parse ["--xml=a.xml", "--verbose"]).emitted
      = [Emission.xmlEcho (parse ["--xml=a.xml", "--verbose"]).config.xmlInputPath] :=
  ((claim_C8 ["--xml=a.xml", "--verbose"]).1 (by decide)).1 (by decide)

/-- Claim C9: the usage text is emitted exactly on the failure paths —
`--help` or any parse error — and it is the whole failure output
(emitted once, before the failure status is returned); a SUCCESS return
emits no usage text. -/
theorem claim_C9 (ts : List String) :
    ((parse ts).status = .FAILURE → (parse ts).emitted = [.usage]) ∧
    (Emission.usage ∈ (parse ts).emitted ↔ (parse ts).status = .FAILURE) ∧
    ((parse ts).status = .SUCCESS → Emission.usage ∉ (parse ts).emitted) := by
  unfold parse
  cases hscan : scanTokens ts (initState freshConfig) with
  | failed e s =>
      rw [get_args_failed hscan]
      refine ⟨fun _ => rfl, by simp, ?_⟩
      intro h
      simp at h
  | done s =>
      rw [get_args_done hscan]
      by_cases hx : s.xml = ""
      · rw [if_pos hx]
        refine ⟨fun _ => rfl, by simp, ?_⟩
        intro h
        simp at h
      · rw [if_neg hx]
        refine ⟨?_, ?_, ?_⟩
        · intro h
          simp at h
        · constructor
          · intro h
            exfalso
            by_cases hv : s.verbose_flag <;> simp [hv] at h
          · intro h
            simp at h
        · intro _ h
          by_cases hv : s.verbose_flag <;> simp [hv] at h

/-- Claim C9 witness: `["--help"]` fails and its output is the usage
text. -/
theorem claim_C9_witness :
    (parse ["--help"]).emitted = [Emission.usage] :=
  (claim_C9 ["--help"]).1 (by decide)

/-- Claim C10: on every FAILURE return (help, unrecognized option, or
missing/empty XML argument) none of the boolean out-parameters is
written — they keep the caller-supplied values; on a SUCCESS return all
three are written from the scan, so the result does not depend on the
caller-supplied boolean values. -/
theorem claim_C10 (ts : List String) (cfg : RunConfiguration) :
    ((get_args ts cfg).status = .FAILURE →
      (get_args ts cfg).config.useTape6 = cfg.useTape6 ∧
      (get_args ts cfg).config.verboseEnabled = cfg.verboseEnabled ∧
      (get_args ts cfg).config.debugEnabled = cfg.debugEnabled) ∧
    ((get_args ts cfg).status = .SUCCESS →
      ∀ b₁ b₂ b₃,
        (get_args ts { cfg with useTape6 := b₁, verboseEnabled := b₂,
                                debugEnabled := b₃ }).config
          = (get_args ts cfg).config) := by
  have hinit : ∀ b₁ b₂ b₃ : Bool,
      initState { cfg with useTape6 := b₁, verboseEnabled := b₂,
                             debugEnabled := b₃ } = initState cfg := fun _ _ _ => rfl
  cases hscan : scanTokens ts (initState cfg) with
  | failed e s =>
      rw [get_args_failed hscan]
      constructor
      · intro _
        exact ⟨rfl, rfl, rfl⟩
      · intro hsucc
        simp at hsucc
  | done s =>
      by_cases hx : s.xml = ""
      · rw [get_args_done hscan, if_pos hx]
        constructor
        · intro _
          exact ⟨rfl, rfl, rfl⟩
        · intro hsucc
          simp at hsucc
      · rw [get_args_done hscan, if_neg hx]
        constructor
        · intro hfail
          simp at hfail
        · intro _ b₁ b₂ b₃
          have hscan2 : scanTokens ts
              (initState { cfg with useTape6 := b₁, verboseEnabled := b₂,
                                      debugEnabled := b₃ }) = .done s := by
            rw [hinit b₁ b₂ b₃]
            exact hscan
          rw [get_args_done hscan2, if_neg hx]

/-- Claim C10 witness: a failing call (`--help`) leaves caller-supplied
booleans (here all true) untouched. -/
theorem claim_C10_witness :
    (get_args ["--help"]
      { xmlInputPath := "", useTape6 := true
        verboseEnabled := true, debugEnabled := true }).config.useTape6 = true ∧
    (get_args ["--help"]
      { xmlInputPath := "", useTape6 := true
        verboseEnabled := true, debugEnabled := true }).config.verboseEnabled = true ∧
    (get_args ["--help"]
      { xmlInputPath := "", useTape6 := true
        verboseEnabled := true, debugEnabled := true }).config.debugEnabled = true :=
  (claim_C10 ["--help"]
    { xmlInputPath := "", useTape6 := true
      verboseEnabled := true, debugEnabled := true }).1 (by decide)
